import Mathlib

/- Shallow embedding of the EarlyAllocator bump allocator
   (src/arceos/modules/bump_allocator/src/lib.rs).

   usize arithmetic is modelled as natural numbers wrapping modulo 2^64
   (release-mode two's-complement wrapping semantics); PAGE_SIZE is a
   parameter of the page operations, mirroring the const generic. -/

/-- Width of usize on the target: 2^64. -/
def USIZE : Nat := 2 ^ 64

/-- Wrapping usize addition. -/
def wadd (x y : Nat) : Nat := (x + y) % USIZE

/-- Wrapping usize subtraction (for x, y < 2^64 this is two's-complement x - y). -/
def wsub (x y : Nat) : Nat := (x + (USIZE - y % USIZE)) % USIZE

/-- Wrapping usize multiplication. -/
def wmul (x y : Nat) : Nat := (x * y) % USIZE

/-- Rust usize::is_power_of_two (exactly one bit set). -/
def is_power_of_two (n : Nat) : Bool := n != 0 && (n &&& (n - 1)) == 0

/-- The variants of allocator::AllocError used by this crate. -/
inductive AllocError where
  | NoMemory
  | InvalidParam
  | MemoryOverlap
deriving DecidableEq

/-- The four usize fields of EarlyAllocator (end is a Lean keyword, stored
    as end_). -/
structure EarlyAllocator where
  start : Nat
  end_ : Nat
  b_pos : Nat
  p_pos : Nat
deriving DecidableEq

namespace EarlyAllocator

/-- EarlyAllocator::new. -/
def new : EarlyAllocator := ⟨0, 0, 0, 0⟩

/-- BaseAllocator::init: start = base, end = base + size, b_pos = start,
    p_pos = start + size. The previous state is overwritten entirely. -/
def init (base size : Nat) : EarlyAllocator :=
  { start := base, end_ := wadd base size, b_pos := base, p_pos := wadd base size }

/-- BaseAllocator::add_memory; the result is paired with the state of the
    allocator after the call (unchanged on the error path). -/
def add_memory (s : EarlyAllocator) (base size : Nat) :
    Except AllocError Unit × EarlyAllocator :=
  if base < s.end_ ∧ wadd base size > s.start then
    (Except.error AllocError.MemoryOverlap, s)
  else
    let s1 := if base < s.start then { s with start := base } else s
    let s2 := if wadd base size > s1.end_ then
      { s1 with end_ := wadd base size, p_pos := wadd base size } else s1
    (Except.ok (), s2)

/-- ByteAllocator::total_bytes = end - start. -/
def total_bytes (s : EarlyAllocator) : Nat := wsub s.end_ s.start

/-- ByteAllocator::used_bytes = b_pos - start. -/
def used_bytes (s : EarlyAllocator) : Nat := wsub s.b_pos s.start

/-- ByteAllocator::available_bytes = end - b_pos. -/
def available_bytes (s : EarlyAllocator) : Nat := wsub s.end_ s.b_pos

/-- Outcome of ByteAllocator::alloc: ok and err carry the state after the
    call; panicked models the panic branch (no state is returned). -/
inductive ByteAllocOutcome where
  | ok (addr : Nat) (s : EarlyAllocator)
  | err (e : AllocError) (s : EarlyAllocator)
  | panicked
deriving DecidableEq

/-- ByteAllocator::alloc: the layout's align is never read by the code.
    NonNull::new(self.start as *mut u8) is None exactly when the stored
    start address is 0, in which case the code panics; otherwise the old
    start is returned and start is advanced by size. -/
def alloc (s : EarlyAllocator) (size _align : Nat) : ByteAllocOutcome :=
  if available_bytes s < size then ByteAllocOutcome.err AllocError.NoMemory s
  else if s.start = 0 then ByteAllocOutcome.panicked
  else ByteAllocOutcome.ok s.start { s with start := wadd s.start size }

/-- ByteAllocator::dealloc: if pos + size equals the stored start address,
    start is decremented by size; otherwise nothing happens. -/
def dealloc (s : EarlyAllocator) (pos size : Nat) : EarlyAllocator :=
  if wadd pos size = s.start then { s with start := wsub s.start size } else s

/-- PageAllocator::alloc_pages, parameterised by PAGE_SIZE; the result is
    paired with the state after the call. The computed align_pow2 / PAGE_SIZE
    quotient is unused by the code and is omitted. -/
def alloc_pages (P : Nat) (s : EarlyAllocator) (num_pages align_pow2 : Nat) :
    Except AllocError Nat × EarlyAllocator :=
  if align_pow2 % P ≠ 0 ∨ is_power_of_two align_pow2 = false then
    (Except.error AllocError.InvalidParam, s)
  else if s.p_pos < wmul num_pages P then
    (Except.error AllocError.NoMemory, s)
  else
    (Except.ok (s.p_pos - wmul num_pages P), { s with p_pos := s.p_pos - wmul num_pages P })

/-- PageAllocator::dealloc_pages: unconditionally adds num_pages * PAGE_SIZE
    to p_pos; pos is ignored. -/
def dealloc_pages (P : Nat) (s : EarlyAllocator) (_pos num_pages : Nat) : EarlyAllocator :=
  { s with p_pos := wadd s.p_pos (wmul num_pages P) }

/-- PageAllocator::total_pages = (end - start) / PAGE_SIZE. -/
def total_pages (P : Nat) (s : EarlyAllocator) : Nat := wsub s.end_ s.start / P

/-- PageAllocator::used_pages = (end - p_pos) / PAGE_SIZE. -/
def used_pages (P : Nat) (s : EarlyAllocator) : Nat := wsub s.end_ s.p_pos / P

/-- PageAllocator::available_pages = (p_pos - start) / PAGE_SIZE. -/
def available_pages (P : Nat) (s : EarlyAllocator) : Nat := wsub s.p_pos s.start / P

end EarlyAllocator

/-- The layout invariant of the spec: start ≤ b_pos ≤ p_pos ≤ end. -/
def layout_inv (s : EarlyAllocator) : Prop :=
  s.start ≤ s.b_pos ∧ s.b_pos ≤ s.p_pos ∧ s.p_pos ≤ s.end_

/-- One call to a mutating operation of the allocator. -/
inductive Op where
  | add_memory (base size : Nat)
  | alloc (size align : Nat)
  | dealloc (pos size : Nat)
  | alloc_pages (num_pages align_pow2 : Nat)
  | dealloc_pages (pos num_pages : Nat)
deriving DecidableEq

/-- Apply one operation to the state; some s1 exactly when the call succeeds
    (an error or a panic yields none). -/
def apply_op (P : Nat) (s : EarlyAllocator) : Op → Option EarlyAllocator
  | Op.add_memory base size =>
    match EarlyAllocator.add_memory s base size with
    | (Except.ok _, s1) => some s1
    | (Except.error _, _) => none
  | Op.alloc size align =>
    match EarlyAllocator.alloc s size align with
    | EarlyAllocator.ByteAllocOutcome.ok _ s1 => some s1
    | _ => none
  | Op.dealloc pos size => some (EarlyAllocator.dealloc s pos size)
  | Op.alloc_pages n a =>
    match EarlyAllocator.alloc_pages P s n a with
    | (Except.ok _, s1) => some s1
    | (Except.error _, _) => none
  | Op.dealloc_pages pos n => some (EarlyAllocator.dealloc_pages P s pos n)

/-- Run a list of operations from a state, requiring every call to succeed. -/
def run_ops (P : Nat) (s : EarlyAllocator) : List Op → Option EarlyAllocator
  | [] => some s
  | op :: ops =>
    match apply_op P s op with
    | some s1 => run_ops P s1 ops
    | none => none

/-- C1: the layout invariant start ≤ b_pos ≤ p_pos ≤ end is broken by a
    successful byte allocation: after init(0x1000, 0x100) then alloc(0x10, 1)
    the state is ⟨start = 0x1010, end = 0x1100, b_pos = 0x1000, p_pos = 0x1100⟩,
    and start ≤ b_pos fails because alloc advances start, not b_pos. -/
theorem c1_invariant_broken_after_alloc :
    run_ops 0x1000 (EarlyAllocator.init 0x1000 0x100) [Op.alloc 0x10 1] =
      some ⟨0x1010, 0x1100, 0x1000, 0x1100⟩ ∧
    ¬ layout_inv ⟨0x1010, 0x1100, 0x1000, 0x1100⟩ := by
  constructor
  · decide
  · unfold layout_inv
    decide

/-- C2: after init(0x1000, 0x100), alloc(0x10, 1) does return address 0x1000,
    but used_bytes() then evaluates b_pos - start = 0x1000 - 0x1010, which
    wraps to 2^64 - 0x10 instead of the specified 0x10, because alloc
    advanced start rather than b_pos. -/
theorem c2_used_bytes_wrong_after_alloc :
    EarlyAllocator.alloc (EarlyAllocator.init 0x1000 0x100) 0x10 1 =
      EarlyAllocator.ByteAllocOutcome.ok 0x1000 ⟨0x1010, 0x1100, 0x1000, 0x1100⟩ ∧
    EarlyAllocator.used_bytes ⟨0x1010, 0x1100, 0x1000, 0x1100⟩ ≠ 0x10 := by
  constructor
  · decide
  · decide

/-- C3: the NoMemory guards do not test the free gap between the byte and
    page frontiers. With PAGE_SIZE = 0x1000: after init(0x1000, 0x2000) and a
    successful alloc_pages(1, 0x1000) the gap p_pos - b_pos is 0x1000 bytes,
    yet alloc(0x1800, 1) succeeds (the code tests end - b_pos); and after
    init(0x1000, 0x1000) the gap holds a single page, yet alloc_pages(2, 0x1000)
    succeeds (the code compares num_pages * PAGE_SIZE against the absolute
    address p_pos, not against the gap). -/
theorem c3_no_memory_guard_ignores_gap :
    (EarlyAllocator.alloc_pages 0x1000 (EarlyAllocator.init 0x1000 0x2000) 1 0x1000 =
       (Except.ok 0x2000, ⟨0x1000, 0x3000, 0x1000, 0x2000⟩) ∧
     wsub 0x2000 0x1000 < 0x1800 ∧
     EarlyAllocator.alloc ⟨0x1000, 0x3000, 0x1000, 0x2000⟩ 0x1800 1 =
       EarlyAllocator.ByteAllocOutcome.ok 0x1000 ⟨0x2800, 0x3000, 0x1000, 0x2000⟩) ∧
    (wsub (EarlyAllocator.init 0x1000 0x1000).p_pos
        (EarlyAllocator.init 0x1000 0x1000).b_pos / 0x1000 < 2 ∧
     EarlyAllocator.alloc_pages 0x1000 (EarlyAllocator.init 0x1000 0x1000) 2 0x1000 =
       (Except.ok 0, ⟨0x1000, 0x2000, 0x1000, 0⟩)) := by
  refine ⟨⟨rfl, by decide, by decide⟩, by decide, rfl⟩

/-- C4: the pages accounting identity fails at a reachable state: after
    init(0x1000, 0x1000) the call alloc_pages(2, 0x1000) succeeds (see C3)
    and drives p_pos to 0, where total_pages = 1 but used_pages = 2 and
    available_pages wraps, so total_pages ≠ used_pages + available_pages. -/
theorem c4_pages_identity_fails :
    run_ops 0x1000 (EarlyAllocator.init 0x1000 0x1000) [Op.alloc_pages 2 0x1000] =
      some ⟨0x1000, 0x2000, 0x1000, 0⟩ ∧
    EarlyAllocator.total_pages 0x1000 ⟨0x1000, 0x2000, 0x1000, 0⟩ ≠
      EarlyAllocator.used_pages 0x1000 ⟨0x1000, 0x2000, 0x1000, 0⟩ +
      EarlyAllocator.available_pages 0x1000 ⟨0x1000, 0x2000, 0x1000, 0⟩ := by
  constructor
  · decide
  · decide

/-- C6: alloc_pages performs no frontier rounding for the requested
    alignment: with PAGE_SIZE = 0x1000, after init(0x1000, 0x3000) the call
    alloc_pages(1, 0x2000) succeeds and returns 0x3000, which is not a
    multiple of the requested alignment 0x2000. -/
theorem c6_alignment_not_honoured :
    EarlyAllocator.alloc_pages 0x1000 (EarlyAllocator.init 0x1000 0x3000) 1 0x2000 =
      (Except.ok 0x3000, ⟨0x1000, 0x4000, 0x1000, 0x3000⟩) ∧
    0x3000 % 0x2000 ≠ 0 := by
  constructor
  · rfl
  · decide

/-- C5: dealloc(pos, size) decrements the byte cursor (the start field, which
    alloc bumps forward and whose old value alloc returns) by size exactly
    when pos + size equals the cursor; any other call leaves the whole state,
    and in particular used_bytes(), unchanged. -/
theorem c5_dealloc_lifo_only (s : EarlyAllocator) (pos size : Nat) :
    (wadd pos size = s.start →
      EarlyAllocator.dealloc s pos size = { s with start := wsub s.start size }) ∧
    (wadd pos size ≠ s.start →
      EarlyAllocator.dealloc s pos size = s ∧
      EarlyAllocator.used_bytes (EarlyAllocator.dealloc s pos size) =
        EarlyAllocator.used_bytes s) := by
  unfold EarlyAllocator.dealloc
  constructor
  · intro h
    rw [if_pos h]
  · intro h
    rw [if_neg h]
    exact ⟨rfl, rfl⟩

/-- C5 witness: with start = 0x1030 after allocating 0x10 then 0x20 from base
    0x1000, freeing the top block (0x1010, 0x20) retracts start to 0x1010,
    while freeing the first block (0x1000, 0x10) is a no-op that leaves
    used_bytes unchanged. -/
theorem c5_witness :
    EarlyAllocator.dealloc ⟨0x1030, 0x1100, 0x1000, 0x1100⟩ 0x1010 0x20 =
      { (⟨0x1030, 0x1100, 0x1000, 0x1100⟩ : EarlyAllocator) with start := wsub 0x1030 0x20 } ∧
    (EarlyAllocator.dealloc ⟨0x1030, 0x1100, 0x1000, 0x1100⟩ 0x1000 0x10 =
      ⟨0x1030, 0x1100, 0x1000, 0x1100⟩ ∧
     EarlyAllocator.used_bytes (EarlyAllocator.dealloc ⟨0x1030, 0x1100, 0x1000, 0x1100⟩ 0x1000 0x10) =
      EarlyAllocator.used_bytes ⟨0x1030, 0x1100, 0x1000, 0x1100⟩) :=
  ⟨(c5_dealloc_lifo_only ⟨0x1030, 0x1100, 0x1000, 0x1100⟩ 0x1010 0x20).1 (by decide),
   (c5_dealloc_lifo_only ⟨0x1030, 0x1100, 0x1000, 0x1100⟩ 0x1000 0x10).2 (by decide)⟩

/-- C7: alloc_pages fails with InvalidParam and leaves the state unchanged
    whenever the requested alignment is not a power of two or not a multiple
    of PAGE_SIZE. -/
theorem c7_invalid_param (P : Nat) (s : EarlyAllocator) (n a : Nat)
    (h : is_power_of_two a = false ∨ a % P ≠ 0) :
    EarlyAllocator.alloc_pages P s n a = (Except.error AllocError.InvalidParam, s) := by
  have hg : a % P ≠ 0 ∨ is_power_of_two a = false := h.elim Or.inr Or.inl
  unfold EarlyAllocator.alloc_pages
  rw [if_pos hg]

/-- C7 witness: with PAGE_SIZE = 0x1000, both alloc_pages(1, 0x1500) (not a
    multiple of PAGE_SIZE) and alloc_pages(1, 0x3000) (not a power of two)
    fail with InvalidParam and leave the state unchanged. -/
theorem c7_witness :
    EarlyAllocator.alloc_pages 0x1000 (EarlyAllocator.init 0x1000 0x100) 1 0x1500 =
      (Except.error AllocError.InvalidParam, EarlyAllocator.init 0x1000 0x100) ∧
    EarlyAllocator.alloc_pages 0x1000 (EarlyAllocator.init 0x1000 0x100) 1 0x3000 =
      (Except.error AllocError.InvalidParam, EarlyAllocator.init 0x1000 0x100) :=
  ⟨c7_invalid_param 0x1000 (EarlyAllocator.init 0x1000 0x100) 1 0x1500 (Or.inr (by decide)),
   c7_invalid_param 0x1000 (EarlyAllocator.init 0x1000 0x100) 1 0x3000 (Or.inl (by decide))⟩

/-- C8 counterexample: with managed range [0x1000, 0x2000), add_memory(0x1800, 0)
    is rejected with MemoryOverlap although the empty range [0x1800, 0x1800)
    intersects nothing, so rejection is not equivalent to intersection of the
    two address ranges. -/
theorem c8_counterexample :
    (EarlyAllocator.add_memory (EarlyAllocator.init 0x1000 0x1000) 0x1800 0).1 =
      Except.error AllocError.MemoryOverlap ∧
    (∀ x : Nat, ¬ (0x1800 ≤ x ∧ x < 0x1800 + 0 ∧
      (EarlyAllocator.init 0x1000 0x1000).start ≤ x ∧
      x < (EarlyAllocator.init 0x1000 0x1000).end_)) := by
  constructor
  · rfl
  · intro x hx
    omega

/-- C8 amended: add_memory(base, size) fails with MemoryOverlap, leaving
    every field unchanged, exactly when base < end and base + size > start
    (for a nonempty block and a nonempty managed range this coincides with
    interval intersection); on success it returns Ok, never touches b_pos,
    lowers start to base exactly when base < start, and exactly when
    base + size > end it raises end to base + size and resets p_pos to the
    new end (otherwise end and p_pos are unchanged). -/
theorem c8_add_memory_spec (s : EarlyAllocator) (base size : Nat) :
    (base < s.end_ ∧ wadd base size > s.start →
      EarlyAllocator.add_memory s base size = (Except.error AllocError.MemoryOverlap, s)) ∧
    (¬ (base < s.end_ ∧ wadd base size > s.start) →
      (EarlyAllocator.add_memory s base size).1 = Except.ok () ∧
      (EarlyAllocator.add_memory s base size).2.b_pos = s.b_pos ∧
      (EarlyAllocator.add_memory s base size).2.start =
        (if base < s.start then base else s.start) ∧
      (EarlyAllocator.add_memory s base size).2.end_ =
        (if wadd base size > s.end_ then wadd base size else s.end_) ∧
      (EarlyAllocator.add_memory s base size).2.p_pos =
        (if wadd base size > s.end_ then wadd base size else s.p_pos)) := by
  unfold EarlyAllocator.add_memory
  constructor
  · intro h
    rw [if_pos h]
  · intro h
    rw [if_neg h]
    by_cases h1 : base < s.start <;> by_cases h2 : wadd base size > s.end_ <;>
      simp [h1, h2]

/-- C8 witness: with managed range [0x1000, 0x2000), add_memory(0x1800, 0x100)
    overlaps and fails with MemoryOverlap leaving the state unchanged, while
    add_memory(0x3000, 0x1000) is disjoint, succeeds and keeps b_pos. -/
theorem c8_witness :
    EarlyAllocator.add_memory (EarlyAllocator.init 0x1000 0x1000) 0x1800 0x100 =
      (Except.error AllocError.MemoryOverlap, EarlyAllocator.init 0x1000 0x1000) ∧
    (EarlyAllocator.add_memory (EarlyAllocator.init 0x1000 0x1000) 0x3000 0x1000).2.b_pos =
      (EarlyAllocator.init 0x1000 0x1000).b_pos :=
  ⟨(c8_add_memory_spec (EarlyAllocator.init 0x1000 0x1000) 0x1800 0x100).1
      ⟨by decide, by decide⟩,
   ((c8_add_memory_spec (EarlyAllocator.init 0x1000 0x1000) 0x3000 0x1000).2 (by decide)).2.1⟩

/-- C9: the byte operations mutate only the start field: b_pos, p_pos and
    end are unchanged by every outcome of alloc (success or error) and by
    every dealloc, and consequently available_bytes (end - b_pos) is the
    same before and after every successful alloc. -/
theorem c9_byte_ops_frame (s : EarlyAllocator) (size align pos dsize : Nat) :
    (∀ addr s1, EarlyAllocator.alloc s size align = EarlyAllocator.ByteAllocOutcome.ok addr s1 →
      s1.b_pos = s.b_pos ∧ s1.p_pos = s.p_pos ∧ s1.end_ = s.end_ ∧
      EarlyAllocator.available_bytes s1 = EarlyAllocator.available_bytes s) ∧
    (∀ e s1, EarlyAllocator.alloc s size align = EarlyAllocator.ByteAllocOutcome.err e s1 →
      s1 = s) ∧
    ((EarlyAllocator.dealloc s pos dsize).b_pos = s.b_pos ∧
     (EarlyAllocator.dealloc s pos dsize).p_pos = s.p_pos ∧
     (EarlyAllocator.dealloc s pos dsize).end_ = s.end_) := by
  refine ⟨?_, ?_, ?_⟩
  · intro addr s1 h
    unfold EarlyAllocator.alloc at h
    split at h
    · simp at h
    · split at h
      · simp at h
      · rw [EarlyAllocator.ByteAllocOutcome.ok.injEq] at h
        rw [← h.2]
        exact ⟨rfl, rfl, rfl, rfl⟩
  · intro e s1 h
    unfold EarlyAllocator.alloc at h
    split at h
    · rw [EarlyAllocator.ByteAllocOutcome.err.injEq] at h
      exact h.2.symm
    · split at h
      · simp at h
      · simp at h
  · unfold EarlyAllocator.dealloc
    split
    · exact ⟨rfl, rfl, rfl⟩
    · exact ⟨rfl, rfl, rfl⟩

/-- C9 witness: the successful alloc(0x10, 1) from init(0x1000, 0x100)
    reaches the state ⟨0x1010, 0x1100, 0x1000, 0x1100⟩ and preserves b_pos,
    p_pos, end and available_bytes. -/
theorem c9_witness :
    (⟨0x1010, 0x1100, 0x1000, 0x1100⟩ : EarlyAllocator).b_pos =
      (EarlyAllocator.init 0x1000 0x100).b_pos ∧
    (⟨0x1010, 0x1100, 0x1000, 0x1100⟩ : EarlyAllocator).p_pos =
      (EarlyAllocator.init 0x1000 0x100).p_pos ∧
    (⟨0x1010, 0x1100, 0x1000, 0x1100⟩ : EarlyAllocator).end_ =
      (EarlyAllocator.init 0x1000 0x100).end_ ∧
    EarlyAllocator.available_bytes ⟨0x1010, 0x1100, 0x1000, 0x1100⟩ =
      EarlyAllocator.available_bytes (EarlyAllocator.init 0x1000 0x100) :=
  (c9_byte_ops_frame (EarlyAllocator.init 0x1000 0x100) 0x10 1 0 0).1
    0x1000 ⟨0x1010, 0x1100, 0x1000, 0x1100⟩ (by decide)

/-- C10: whenever the stored start address is 0 and the size check passes
    (size ≤ available_bytes), alloc takes the panic branch instead of
    returning a result: NonNull::new(0 as *mut u8) is None. -/
theorem c10_alloc_panics_on_null (s : EarlyAllocator) (size align : Nat)
    (h0 : s.start = 0) (h1 : ¬ (EarlyAllocator.available_bytes s < size)) :
    EarlyAllocator.alloc s size align = EarlyAllocator.ByteAllocOutcome.panicked := by
  unfold EarlyAllocator.alloc
  rw [if_neg h1, if_pos h0]

/-- C10 witness: after init(0, 0x100) the first byte allocation
    alloc(0x10, 1) panics. -/
theorem c10_witness :
    EarlyAllocator.alloc (EarlyAllocator.init 0 0x100) 0x10 1 =
      EarlyAllocator.ByteAllocOutcome.panicked :=
  c10_alloc_panics_on_null (EarlyAllocator.init 0 0x100) 0x10 1 (by decide) (by decide)
